import Mathlib

/-!
Verification of the real-time audio session controller of
`src/week2/pipecat_ivr.py` (the `websocket_handler` WebSocket endpoint and
its helper functions).  The handler is a single sequential receive loop:
every inbound event is parsed and fully processed — including the
transcription / dialogue / synthesis pipeline and the paced outbound audio
sends — before the next `receive_text` is awaited.  The model below embeds
that loop as a step function on an explicit session state, with the three
external collaborators (Whisper transcription, the chat-completion
dialogue engine, and the ElevenLabs TTS service) supplied as an oracle
record; `none`/failure values of the oracle model the corresponding
network call raising an exception.

Numeric conventions: mu-law bytes and byte strings are `Nat` / `List Nat`
(values 0..255), PCM samples are `Int`, and wall-clock timestamps are
`Int` milliseconds (the source uses Python floats from `time.time()`;
every timing comparison the claims touch is against the constants 1.5,
1.2 and 0.3 seconds — 1500, 1200 and 300 ms — for which the millisecond
model is exact).  The RMS-energy threshold test `energy > 500` is
modelled by the exact equivalent comparison on the sum of squared
samples, avoiding floating point.
-/

/-- Decode a single mu-law byte to a linear PCM sample, mirroring
`mulaw_decode` of `pipecat_ivr.py` (lines 455-463): the byte is
complemented (`~b & 0xFF`), split into sign / exponent / mantissa, and
expanded with the standard G.711 bias 0x84.  (The same arithmetic is
inlined in `calculate_audio_energy`, lines 369-386.) -/
def mulaw_decode (b : Nat) : Int :=
  let c : Nat := 255 - b % 256
  let sign : Nat := c &&& 0x80
  let exponent : Nat := (c >>> 4) &&& 0x07
  let mantissa : Nat := c &&& 0x0F
  let sample : Int := (((mantissa <<< 3) + 0x84) <<< exponent : Nat) - 0x84
  if sign ≠ 0 then -sample else sample

/-- Encode a linear PCM sample to a mu-law byte, mirroring `pcm_to_mulaw`
of `pipecat_ivr.py` (lines 465-485): bias `MULAW_BIAS = 33`, clip at
`MULAW_MAX = 0x1FFF`, exponent found as the first `exp` with the biased
magnitude below `1 << (exp + 8)` (7 when no test succeeds), and the
result complemented (`~x & 0xFF`). -/
def pcm_to_mulaw (pcm : Int) : Nat :=
  let sign : Nat := if pcm < 0 then 0x80 else 0
  let mag : Int := if pcm < 0 then -pcm else pcm
  let v : Nat := (min (mag + 33) 0x1FFF).toNat
  let exponent : Nat :=
    if v < 256 then 0 else if v < 512 then 1 else if v < 1024 then 2
    else if v < 2048 then 3 else if v < 4096 then 4 else if v < 8192 then 5
    else if v < 16384 then 6 else 7
  let mantissa : Nat := (v >>> (exponent + 3)) &&& 0x0F
  255 - ((sign ||| (exponent <<< 4) ||| mantissa) % 256)

/-- Exponent (segment number) a mu-law byte carries, as `mulaw_decode`
reads it; the decoder's quantisation step inside that segment is
`8 * 2 ^ exponent`. -/
def mulaw_segment (b : Nat) : Nat := ((255 - b % 256) >>> 4) &&& 0x07

/-- Quantisation step size of the G.711 segment the byte `b` lives in:
two decodable samples of that segment differ by this much per mantissa
increment, so a standard-conformant re-encoding of `mulaw_decode b` may
be off by at most this amount (half of it, for a rounding encoder). -/
def mulaw_step (b : Nat) : Int := 8 * 2 ^ mulaw_segment b

/-- Sum of squared decoded samples of a chunk, as accumulated by
`calculate_audio_energy` (lines 369-386) before the division and square
root. -/
def sumSquares (chunk : List Nat) : Int :=
  (chunk.map (fun b => mulaw_decode b * mulaw_decode b)).sum

/-- The source's `energy > ENERGY_THRESHOLD` test (threshold 500), made
exact: `energy = sqrt(sumSquares/len)`, so `energy > 500` iff
`sumSquares > 250000 * len` (over the nonnegative reals; the source
computes the square root in floating point).  The source never evaluates
the energy of an empty chunk (`if payload:` skips empty frames). -/
def energy_above (chunk : List Nat) : Bool :=
  decide ((250000 : Int) * chunk.length < sumSquares chunk)

/-- The source's `energy < ENERGY_THRESHOLD` test, made exact the same
way as `energy_above`. -/
def energy_below (chunk : List Nat) : Bool :=
  decide (sumSquares chunk < (250000 : Int) * chunk.length)

/-- List `l` starts with `p` (Python `startswith` over characters; also
used at the token level for the whole-token matching of claim C4). -/
def listStartsWith {α : Type} [BEq α] : List α → List α → Bool
  | _, [] => true
  | [], _ :: _ => false
  | a :: as, b :: bs => a == b && listStartsWith as bs

/-- Some contiguous run of `s` equals `p`: Python's substring test
`p in s` when instantiated at characters. -/
def hasSub {α : Type} [BEq α] (p : List α) : List α → Bool
  | [] => p.isEmpty
  | c :: rest => listStartsWith (c :: rest) p || hasSub p rest

/-- Python `p in s` on strings (substring containment). -/
def containsSub (p s : String) : Bool := hasSub p.data s.data

/-- Python `s.startswith(w)`. -/
def pyStartsWith (s w : String) : Bool := listStartsWith s.data w.data

/-- Python `s.endswith(w)`. -/
def pyEndsWith (s w : String) : Bool := listStartsWith s.data.reverse w.data.reverse

/-- Whitespace for Python `str.strip()` (the characters that occur in this
code path). -/
def isPySpace (c : Char) : Bool := c == ' ' || c == '\t' || c == '\n' || c == '\r'

/-- Drop characters satisfying `p` from both ends of a character list. -/
def stripEnds (p : Char → Bool) (l : List Char) : List Char :=
  ((l.dropWhile p).reverse.dropWhile p).reverse

/-- Python `s.strip()`. -/
def pyStrip (s : String) : String := ⟨stripEnds isPySpace s.data⟩

/-- Python `s.strip('.,!?')` as used on line 657. -/
def pyStripPunct (s : String) : String :=
  ⟨stripEnds (fun c => c == '.' || c == ',' || c == '!' || c == '?') s.data⟩

/-- Python `s.lower()` (ASCII case folding; every phrase the handler
compares against is ASCII). -/
def pyLower (s : String) : String := ⟨s.data.map Char.toLower⟩

/-- The `NO_RESPONSES` phrase list (lines 365-367). -/
def NO_RESPONSES : List String :=
  ["no", "nope", "no thanks", "nothing", "that's all", "i'm good",
   "no i'm good", "nope that's it", "no questions", "nothing else",
   "all good", "i'm fine", "no thank you"]

/-- The `EXIT_PHRASES` list (lines 389-405). -/
def EXIT_PHRASES : List String :=
  ["goodbye", "bye", "bye bye", "good bye", "bye for now", "bye now",
   "that's all", "that's it", "nothing else", "no more questions",
   "i'm done", "all done", "we're done", "that's everything",
   "thank you bye", "thanks bye", "thank you goodbye", "thanks that's all",
   "thanks i'm done", "thank you that's it", "thanks i'm good now",
   "end call", "hang up", "disconnect", "end the call", "cut the call",
   "gotta go", "have to go", "need to go", "i'll let you go",
   "okay bye", "alright bye", "okay that's all", "alright that's it",
   "i think i'm done", "i think that's all", "i guess that's it",
   "nope that's all", "no that's it", "no i'm done"]

/-- The `NOT_EXIT_PHRASES` list (lines 408-413). -/
def NOT_EXIT_PHRASES : List String :=
  ["thank you", "thanks", "thank you so much", "thanks a lot", "thanks so much",
   "okay", "ok", "got it", "alright", "cool", "great", "perfect", "awesome",
   "i see", "i understand", "understood", "makes sense", "that helps",
   "wonderful", "excellent", "fantastic", "amazing", "sure", "right"]

/-- The `garbage_words` list (line 643). -/
def GARBAGE_WORDS : List String := ["you", "you.", "yeah", "hmm", "uh", "um", ""]

/-- Line 642: `clean_transcript = transcript.strip().lower()`. -/
def clean_transcript (transcript : String) : String := pyLower (pyStrip transcript)

/-- Line 644: a transcript is noise when it is a listed filler word or
shorter than 3 characters. -/
def is_garbage_of (clean : String) : Bool :=
  GARBAGE_WORDS.contains clean || clean.data.length < 3

/-- Lines 648-649: keyword exit detection — some exit phrase is a
substring of the cleaned transcript, and the transcript is not a listed
simple acknowledgment. -/
def is_exit_of (clean : String) : Bool :=
  EXIT_PHRASES.any (fun p => containsSub p clean) &&
    !(NOT_EXIT_PHRASES.contains clean)

/-- Lines 657-663: the goodbye-flow negative-confirmation test on the
punctuation-stripped transcript `cfn` — exact equality with a
`NO_RESPONSES` phrase, or the phrase plus a space as a prefix, or a
space plus the phrase as a suffix. -/
def is_no_response_of (cfn : String) : Bool :=
  NO_RESPONSES.any (fun w =>
    w == cfn || pyStartsWith cfn (w ++ " ") || pyEndsWith cfn (" " ++ w))

/-- The exit sentinel the dialogue engine may embed in a reply (lines
812-816). -/
def EXIT_SENTINEL : String := "[EXIT_INTENT_DETECTED]"

/-- Greeting text spoken on the `start` event (line 510). -/
def GREETING_MSG : String := "Hello! I'm your AI assistant. How can I help you today?"

/-- The confirm-before-hangup question (lines 717 and 821). -/
def ASK_MSG : String := "Before I let you go, do you have any other questions?"

/-- The closing message of the goodbye flow (line 670). -/
def GOODBYE_MSG : String := "Thank you for calling! Goodbye and have a great day!"

/-- Energy threshold constant `ENERGY_THRESHOLD` (line 357). -/
def ENERGY_THRESHOLD : Nat := 500

/-- Minimum buffered audio to process, `MIN_AUDIO_LENGTH` (line 356). -/
def MIN_AUDIO_LENGTH : Nat := 4000

/-- Hard buffer ceiling, the literal `80000` of line 597 (~10 s). -/
def BUFFER_CEILING : Nat := 80000

/-- Post-reply cooldown `MIN_PAUSE_AFTER_SPEECH` (line 354): 1.5 s, in
milliseconds. -/
def MIN_PAUSE_AFTER_SPEECH : Int := 1500

/-- Silence needed before a flush, `SILENCE_DURATION_TO_PROCESS`
(line 355): 1.2 s, in milliseconds. -/
def SILENCE_DURATION_TO_PROCESS : Int := 1200

/-- The trailing-silence shoulder of line 583: 0.3 s, in milliseconds. -/
def SILENCE_CONTEXT_MS : Int := 300

/-- One message of the conversation history.  The source appends plain
role/content dicts, the SDK's assistant message object (modelled with
role `assistant`; for a tool-call message its content plays no further
role in control flow), and tool-result messages. -/
structure Msg where
  role : String
  content : String
deriving DecidableEq, Repr

/-- The mutable per-call state of `websocket_handler` (lines 346-364):
the local variables the receive loop closes over. -/
structure Session where
  audio_buffer : List Nat
  is_speaking : Bool
  is_interrupted : Bool
  last_response_time : Int
  last_audio_time : Int
  last_silence_time : Int
  user_is_speaking : Bool
  speech_start_time : Int
  pending_goodbye : Bool
  conversation : List Msg
deriving DecidableEq, Repr

/-- Initial state at `await websocket.accept()` (lines 346-441); the
initial conversation holds only the system prompt, whose exact text does
not influence any control flow of the handler and is abbreviated here. -/
def initSession : Session :=
  { audio_buffer := []
    is_speaking := false
    is_interrupted := false
    last_response_time := 0
    last_audio_time := 0
    last_silence_time := 0
    user_is_speaking := false
    speech_start_time := 0
    pending_goodbye := false
    conversation := [⟨"system", "You are a friendly AI phone assistant for TechCorp on a voice call."⟩] }

/-- What the dialogue engine returns for the first chat-completion call of
a turn (line 761): either a direct text reply or a list of tool calls,
each a (function name, JSON arguments) pair. -/
inductive LLMOut where
  | text (reply : String)
  | tools (calls : List (String × String))
deriving DecidableEq, Repr

/-- Oracle for the external collaborators of one turn.  A `none` (for
`tts`: an outer `none`) models the network call raising an exception at
that point.  `tts msg = some none` models an HTTP status other than 200
(no exception; the handler logs and sends nothing).  `tts msg = some
(some audio)` yields the reply already converted to raw mu-law bytes
(the source converts the MP3 via pydub; the conversion is local and
modelled as always succeeding).  `toolResult` models the local
`execute_function` dispatch (lines 199-220), whose string result is only
ever used as message content, never for control flow. -/
structure Externals where
  transcribe : Option String
  llm1 : Option LLMOut
  llm2 : Option String
  toolResult : String → String → String
  tts : String → Option (Option (List Nat))

/-- Observable external effects of processing one event: the Whisper
transcription request for a flushed buffer of `n` bytes (`stt`), a TTS
synthesis request (`say`), one outbound `playAudio` WebSocket message
(`play`), and closing the socket (`close`). -/
inductive Out where
  | stt (nbytes : Nat)
  | say (text : String)
  | play (chunk : List Nat)
  | close
deriving DecidableEq, Repr

/-- Result of processing one inbound event: continue the receive loop
with a new state, or end the session (explicit `websocket.close()` /
`break`). -/
inductive StepResult where
  | cont (s : Session)
  | closed
deriving DecidableEq, Repr

/-- Result of the transcription / dialogue / synthesis pipeline body
(the `try:` block, lines 624-951): normal completion, or an exception
escaping to the outer handler (line 953) with the session state and the
outputs already emitted at raise time. -/
inductive PipeResult where
  | ok (r : StepResult) (outs : List Out)
  | err (s : Session) (outs : List Out)
deriving DecidableEq, Repr

/-- The history trim of lines 946-947 (`conversation[:1] +
conversation[-10:]` once the length exceeds 12). -/
def trim_history (conv : List Msg) : List Msg :=
  if conv.length > 12 then conv.take 1 ++ conv.drop (conv.length - 10) else conv

/-- The paced chunked send of lines 690-698 / 739-746 / 842-849 /
909-926: `for i in range(0, len(mulaw_audio), 640)` slices the mu-law
audio into 640-byte chunks (the last chunk may be shorter). -/
def chunksOf640 (l : List Nat) : List (List Nat) :=
  (List.range ((l.length + 639) / 640)).map (fun k => (l.drop (640 * k)).take 640)

/-- The sentinel stripping of lines 811-814: when the dialogue reply
carries `[EXIT_INTENT_DETECTED]` but the transcript was a simple
acknowledgment, the sentinel is removed from the reply text. -/
def sentinel_strip (ai0 : String) (is_simple_ack : Bool) : String :=
  if containsSub EXIT_SENTINEL ai0 && is_simple_ack then
    pyStrip (String.replace ai0 EXIT_SENTINEL "") else ai0

/-- The reply stage of a turn (lines 805-947): sentinel handling, the
assistant append, TTS synthesis, the paced send and the history trim.
`conv` is the conversation with the user message (and any tool-call
round) already appended; `ai0` the dialogue engine's reply text.

Note on lines 906-936: `is_interrupted` is set to `False` at line 906
immediately before the send loop, and the only statement that can set it
back to `True` (line 554) belongs to the same sequential receive loop,
which is suspended until this send loop finishes.  The flag therefore
stays `False` through the entire loop: every chunk is sent, and the
`if is_interrupted:` restore at lines 933-936 (which would pre-set
`user_is_speaking`) takes its else branch.  The model records that
reachable behaviour. -/
def reply_stage (s : Session) (t : Int) (ext : Externals) (conv : List Msg)
    (is_simple_ack : Bool) (ai0 : String) : PipeResult :=
  let ai := sentinel_strip ai0 is_simple_ack
  if containsSub EXIT_SENTINEL ai && !is_simple_ack then
    let s1 : Session := { s with pending_goodbye := true, conversation := conv }
    match ext.tts ASK_MSG with
    | none => .err s1 [Out.say ASK_MSG]
    | some none => .ok (.cont s1) [Out.say ASK_MSG]
    | some (some audio) =>
      .ok (.cont { s1 with is_speaking := false, audio_buffer := [],
                           last_response_time := t })
        (Out.say ASK_MSG :: (chunksOf640 audio).map Out.play)
  else
    let conv3 := conv ++ [⟨"assistant", ai⟩]
    match ext.tts ai with
    | none => .err { s with conversation := conv3 } [Out.say ai]
    | some none =>
      .ok (.cont { s with conversation := trim_history conv3 }) [Out.say ai]
    | some (some audio) =>
      .ok (.cont { s with conversation := trim_history conv3, audio_buffer := [],
                          is_speaking := false, is_interrupted := false,
                          last_response_time := t })
        (Out.say ai :: (chunksOf640 audio).map Out.play)

/-- Lines 712-951 once the pending-goodbye branch is behind us: the
exit-phrase branch, the normal dialogue turn (with one optional round of
tool calls), or the garbage / empty fall-through. -/
def normal_flow (s : Session) (t : Int) (ext : Externals) (transcript : String)
    (is_garbage is_exit is_simple_ack : Bool) : PipeResult :=
  if is_exit && !s.pending_goodbye then
    let s1 : Session := { s with pending_goodbye := true }
    match ext.tts ASK_MSG with
    | none => .err s1 [Out.say ASK_MSG]
    | some none => .ok (.cont s1) [Out.say ASK_MSG]
    | some (some audio) =>
      .ok (.cont { s1 with is_speaking := false, audio_buffer := [],
                           last_response_time := t })
        (Out.say ASK_MSG :: (chunksOf640 audio).map Out.play)
  else if pyStrip transcript != "" && !is_garbage then
    match ext.llm1 with
    | none => .err { s with conversation := s.conversation ++ [⟨"user", transcript⟩] } []
    | some out =>
      let conv1 := s.conversation ++ [⟨"user", transcript⟩]
      match out with
      | .text reply => reply_stage s t ext conv1 is_simple_ack reply
      | .tools calls =>
        let conv2 := conv1 ++ ⟨"assistant", ""⟩ ::
          calls.map (fun c => ⟨"tool", ext.toolResult c.1 c.2⟩)
        match ext.llm2 with
        | none => .err { s with conversation := conv2 } []
        | some reply => reply_stage s t ext conv2 is_simple_ack reply
  else
    .ok (.cont s) []

/-- The `try:` pipeline body for one flushed utterance (lines 624-951):
transcription, the garbage / exit / simple-acknowledgment
classification (lines 642-649), the pending-goodbye protocol (652-709)
and then `normal_flow`.  `s` is the state after the pre-flush resets of
lines 605-611. -/
def run_pipeline (s : Session) (t : Int) (ext : Externals) : PipeResult :=
  match ext.transcribe with
  | none => .err s []
  | some transcript =>
    let clean := clean_transcript transcript
    let is_garbage := is_garbage_of clean
    let is_simple_ack := NOT_EXIT_PHRASES.contains clean
    let is_exit := is_exit_of clean
    if s.pending_goodbye then
      if is_no_response_of (pyStripPunct clean) || is_garbage then
        let sends : List Out := match ext.tts GOODBYE_MSG with
          | none => []
          | some none => []
          | some (some audio) => (chunksOf640 audio).map Out.play
        .ok .closed (Out.say GOODBYE_MSG :: sends ++ [Out.close])
      else
        normal_flow { s with pending_goodbye := false } t ext transcript
          is_garbage is_exit is_simple_ack
    else
      normal_flow s t ext transcript is_garbage is_exit is_simple_ack

/-- The VAD section of a media event (lines 564-584): a loud frame marks
the user speaking, stamps `last_audio_time` and extends the buffer; a
quiet frame while the user was speaking starts / continues the silence
clock and is still appended during the first 0.3 s (300 ms) of silence. -/
def vad_update (s : Session) (chunk : List Nat) (t : Int) : Session :=
  if energy_above chunk then
    { s with user_is_speaking := true,
             speech_start_time := if s.user_is_speaking then s.speech_start_time else t,
             last_audio_time := t,
             audio_buffer := s.audio_buffer ++ chunk }
  else if s.user_is_speaking then
    let lst := if s.last_silence_time = 0 then t else s.last_silence_time
    { s with last_silence_time := lst,
             audio_buffer := if t - lst < SILENCE_CONTEXT_MS then s.audio_buffer ++ chunk
                             else s.audio_buffer }
  else s

/-- The `should_process` decision of lines 588-594. -/
def should_process (s : Session) (t : Int) : Bool :=
  decide (MIN_AUDIO_LENGTH ≤ s.audio_buffer.length) && s.user_is_speaking &&
    decide (SILENCE_DURATION_TO_PROCESS ≤
      (if 0 < s.last_audio_time then t - s.last_audio_time else 0))

/-- The `buffer_too_large` force-flush test of line 597. -/
def buffer_too_large (s : Session) : Bool :=
  decide (BUFFER_CEILING ≤ s.audio_buffer.length)

/-- The pre-pipeline resets of lines 605-611, executed before the `try:`
block: the VAD flags are reset and the buffer is consumed and cleared
whatever the pipeline later does. -/
def flush_reset (s : Session) : Session :=
  { s with user_is_speaking := false, last_silence_time := 0, audio_buffer := [] }

/-- The outer `except` of line 953: an exception escaping the pipeline is
caught and logged, and the receive loop continues with the state the
pipeline left behind. -/
def catchPipe : PipeResult → StepResult × List Out
  | .ok r outs => (r, outs)
  | .err sErr outs => (.cont sErr, outs)

/-- One `media` event (lines 537-956): interruption check, post-reply
cooldown, VAD, flush decision, and — on a flush — the pre-pipeline resets
of lines 605-611 followed by the pipeline with its outer exception
handler (line 953), which logs and lets the receive loop continue. -/
def processMedia (s : Session) (chunk : List Nat) (t : Int) (ext : Externals) :
    StepResult × List Out :=
  if chunk = [] then (.cont s, [])
  else if s.is_speaking && energy_above chunk then
    (.cont { s with is_interrupted := true }, [])
  else if decide (t - s.last_response_time < MIN_PAUSE_AFTER_SPEECH) &&
      energy_below chunk then
    (.cont { s with audio_buffer := [] }, [])
  else
    let s1 := vad_update s chunk t
    if should_process s1 t || buffer_too_large s1 then
      let r := catchPipe (run_pipeline (flush_reset s1) t ext)
      (r.1, Out.stt s1.audio_buffer.length :: r.2)
    else
      (.cont s1, [])

/-- Inbound WebSocket events (the `event` discriminator of lines
501-964); a `media` event carries the decoded payload bytes and the
`time.time()` at which it is processed. -/
inductive Event where
  | start
  | media (chunk : List Nat) (t : Int)
  | dtmf (d : String)
  | stop
deriving Repr

/-- Dispatch on one inbound event (lines 501-964).  On `start` the
greeting TTS request is issued but its audio is never sent (the source's
MP3-to-mulaw conversion is an unimplemented TODO, lines 530-533); an
exception from that request escapes the loop (line 966) and ends the
call. -/
def processEvent (ext : Externals) (s : Session) : Event → StepResult × List Out
  | .start =>
    match ext.tts GREETING_MSG with
    | none => (.closed, [Out.say GREETING_MSG])
    | some _ => (.cont s, [Out.say GREETING_MSG])
  | .media chunk t => processMedia s chunk t ext
  | .dtmf _ => (.cont s, [])
  | .stop => (.closed, [])

/-- Run the receive loop over a list of inbound events, collecting the
emitted outputs; the Bool records whether the session ended (close /
stop) before the list was exhausted. -/
def runEvents (ext : Externals) (s : Session) : List Event → Session × List Out × Bool
  | [] => (s, [], false)
  | e :: es =>
    match processEvent ext s e with
    | (.closed, outs) => (s, outs, true)
    | (.cont s1, outs) =>
      let r := runEvents ext s1 es
      (r.1, outs ++ r.2.1, r.2.2)

/-- Session a pipeline result leaves behind (`none` when the call was
closed). -/
def resultSession : PipeResult → Option Session
  | .ok (.cont s) _ => some s
  | .ok .closed _ => none
  | .err s _ => some s

/-- Outputs a pipeline result emitted (also on the exception path: the
effects before the raise are real). -/
def pipeOuts : PipeResult → List Out
  | .ok _ outs => outs
  | .err _ outs => outs

/-- Whether an output is the Whisper transcription request of a flush. -/
def isStt : Out → Bool
  | .stt _ => true
  | _ => false

/-- Whether an output is an outbound `playAudio` frame. -/
def isPlay : Out → Bool
  | .play _ => true
  | _ => false

/-- Number of flush (transcription-request) events among the outputs. -/
def sttCount (outs : List Out) : Nat := (outs.filter isStt).length

/-- Number of outbound audio frames among the outputs. -/
def playCount (outs : List Out) : Nat := (outs.filter isPlay).length

/-- The AI is not mid-reply and no interruption is flagged. -/
def flagsClear (s : Session) : Prop :=
  s.is_speaking = false ∧ s.is_interrupted = false

/-- Fields of the handler state a single pipeline run can only keep or
reset, never invent: the buffer is kept or cleared, `user_is_speaking`,
`last_silence_time` and `last_audio_time` are untouched, and the
speaking / interruption flags are kept or set to false. -/
def stepKept (s s' : Session) : Prop :=
  (s'.audio_buffer = s.audio_buffer ∨ s'.audio_buffer = []) ∧
  s'.user_is_speaking = s.user_is_speaking ∧
  s'.last_silence_time = s.last_silence_time ∧
  s'.last_audio_time = s.last_audio_time ∧
  (s'.is_speaking = s.is_speaking ∨ s'.is_speaking = false) ∧
  (s'.is_interrupted = s.is_interrupted ∨ s'.is_interrupted = false)

/-- Structural facts about one pipeline run from state `s`: every
session it can leave behind is `stepKept`, the run emits no
transcription request of its own (the single `Out.stt` of a flush is
emitted by `processMedia`), and when an exception escapes, no reply
audio was sent during the aborted turn. -/
def pipeKept (s : Session) (r : PipeResult) : Prop :=
  (∀ s', resultSession r = some s' → stepKept s s') ∧
  ((pipeOuts r).all fun o => !isStt o) = true ∧
  ∀ sE outsE, r = .err sE outsE → ((outsE.all fun o => !isPlay o) = true)

/-- A pipeline outcome in which the session was not classified as exit
intent: the call is not closed and `pending_goodbye` is false afterwards
(on the exception path, in the state the handler catches). -/
def keepsListeningB : PipeResult → Bool
  | .ok (.cont s) _ => !s.pending_goodbye
  | .ok .closed _ => false
  | .err s _ => !s.pending_goodbye

/-- A pipeline outcome in which the session spoke the closing message
and terminated: the result is `closed` with the goodbye TTS request and
the socket close among the outputs. -/
def closesWithGoodbyeB : PipeResult → Bool
  | .ok .closed outs =>
      (outs.any fun o => o == Out.say GOODBYE_MSG) && (outs.any fun o => o == Out.close)
  | _ => false

/-- Split a character list at every space (a structural mirror of
splitting a string on the space separator). -/
def splitOnSpace : List Char → List (List Char)
  | [] => [[]]
  | c :: rest =>
    match splitOnSpace rest with
    | [] => [[]]
    | w :: ws => if c = ' ' then [] :: w :: ws else (c :: w) :: ws

/-- The space-separated tokens of a string. -/
def tokensOf (s : String) : List String :=
  (splitOnSpace s.data).map (fun w => ⟨w⟩)

/-- Modelled from claim C4's wording, not from the source: phrase `w`
matches transcript `s` "as a whole token (not as a substring inside
another word)" — the space-separated tokens of `w` occur as a contiguous
run of the space-separated tokens of `s`. -/
def spec_whole_token_match (phrases : List String) (s : String) : Bool :=
  phrases.any (fun w => hasSub (tokensOf w) (tokensOf s))

/-- An oracle on which every external collaborator succeeds; the TTS
reply audio is 800 mu-law silence bytes, i.e. two 640-byte chunks. -/
def oracleHappy : Externals :=
  { transcribe := some "hello there"
    llm1 := some (.text "Hi, how can I help?")
    llm2 := some "done"
    toolResult := fun _ _ => "result"
    tts := fun _ => some (some (List.replicate 800 255)) }

/-- The happy oracle with the transcription call raising. -/
def oracleNoStt : Externals := { oracleHappy with transcribe := none }

/-- One frame of pure mu-law silence (decoded sample 0, energy 0). -/
def quietFrame : List Nat := [255]

/-- A 20 ms frame of the loudest mu-law byte (each sample -32124). -/
def loudFrame : List Nat := List.replicate 160 0

/-- Half a second (4000 bytes) of the loudest mu-law byte: exactly the
minimum buffered audio the flush decision requires. -/
def loudUtterance : List Nat := List.replicate 4000 0

/-- A session state just after an AI reply finished at time 1000:
empty buffer, idle VAD, `last_response_time` stamped. -/
def postReplySession : Session :=
  { initSession with last_response_time := 1000000, last_audio_time := 999000 }

/-- Counterexample trace for C5: half a second of speech starting 0.4 s
after the AI reply ended, one quiet frame 0.6 s after it (still inside
the 1.5 s cooldown), then quiet frames at 1002 and 1003 — silence
lasting far beyond the 1.2 s threshold. -/
def cooldownTrace : List Event :=
  [Event.media loudUtterance 1000400, Event.media quietFrame 1000600,
   Event.media quietFrame 1002000, Event.media quietFrame 1003000]

/-- The session state after a successful reply turn of `oracleHappy`
from the initial state at time 102 s: the user and assistant messages
are appended and `last_response_time` is stamped; buffer empty, both
speaking flags false. -/
def afterReplyState : Session :=
  { initSession with
    conversation := initSession.conversation ++
      [⟨"user", "hello there"⟩, ⟨"assistant", "Hi, how can I help?"⟩]
    last_response_time := 102000 }

/-- State of the C5 counterexample run after the loud half-second at
1000.4 s: buffer full, VAD speaking. -/
def cooldownS1 : Session :=
  { postReplySession with
    user_is_speaking := true
    speech_start_time := 1000400
    last_audio_time := 1000400
    audio_buffer := loudUtterance }

/-- State after the quiet frame at 1000.6 s: inside the cooldown, the
whole buffer has been cleared. -/
def cooldownS2 : Session := { cooldownS1 with audio_buffer := [] }

/-- State after the quiet frame at 1002 s: the silence clock starts and
the frame is appended as trailing context; the buffer is far below the
minimum, so no flush. -/
def cooldownS3 : Session :=
  { cooldownS2 with
    last_silence_time := 1002000
    audio_buffer := quietFrame }

/-- State after the quiet frame at 1003 s: silence beyond the trailing
shoulder, nothing appended, still no flush. -/
def cooldownS4 : Session := cooldownS3

/-- A session in the goodbye-confirmation state. -/
def pendingSession : Session := { initSession with pending_goodbye := true }

/-- Oracle whose transcript embeds the negative-confirmation word `no`
strictly inside the sentence (a whole-token match, but neither a prefix
nor a suffix). -/
def oracleMidNo : Externals := { oracleHappy with transcribe := some "i said no already" }

/-- A session whose history holds 12 entries (the cap of line 946). -/
def sessionConv12 : Session :=
  { initSession with conversation :=
      (⟨"system", "sys"⟩ : Msg) :: (List.range 11).map (fun i => ⟨"user", toString i⟩) }

/-- Oracle for an exit-intent turn signalled by the dialogue engine's
sentinel on a transcript that is neither an exit phrase nor an
acknowledgment. -/
def oracleSentinel : Externals :=
  { oracleHappy with
    transcribe := some "please connect me to a human later"
    llm1 := some (.text "Okay! [EXIT_INTENT_DETECTED]") }

/-- A session mid-utterance: half a second of buffered speech, the VAD
in the speaking state, last loud frame at time 50 s. -/
def bufferedSession : Session :=
  { initSession with audio_buffer := List.replicate 4000 255,
                     user_is_speaking := true, last_audio_time := 50000 }

/-- Oracle for a turn whose transcript is the simple acknowledgment
`thank you` and whose dialogue reply nevertheless carries the exit
sentinel. -/
def oracleAckSent : Externals :=
  { oracleHappy with
    transcribe := some "thank you"
    llm1 := some (.text "You are welcome! [EXIT_INTENT_DETECTED]") }

/-- Oracle whose transcript is the negative confirmation `no thanks`. -/
def oracleNoThanks : Externals := { oracleHappy with transcribe := some "no thanks" }

lemma stepKept_refl (s : Session) : stepKept s s := by
  simp [stepKept]

lemma reply_stage_kept (s : Session) (t : Int) (ext : Externals) (conv : List Msg)
    (ack : Bool) (ai : String) : pipeKept s (reply_stage s t ext conv ack ai) := by
  unfold reply_stage
  dsimp only
  repeat' split
  all_goals simp_all [pipeKept, resultSession, pipeOuts, stepKept, isStt, isPlay]

lemma pipeKept_pending (s : Session) (b : Bool) (r : PipeResult)
    (h : pipeKept { s with pending_goodbye := b } r) : pipeKept s r := by
  obtain ⟨h1, h2, h3⟩ := h
  refine ⟨fun s' hs' => ?_, h2, h3⟩
  have := h1 s' hs'
  simpa [stepKept] using this

lemma normal_flow_kept (s : Session) (t : Int) (ext : Externals) (transcript : String)
    (g e a : Bool) : pipeKept s (normal_flow s t ext transcript g e a) := by
  unfold normal_flow
  dsimp only
  repeat' split
  all_goals
    first
      | apply reply_stage_kept
      | simp_all [pipeKept, resultSession, pipeOuts, stepKept, isStt, isPlay]

lemma run_pipeline_kept (s : Session) (t : Int) (ext : Externals) :
    pipeKept s (run_pipeline s t ext) := by
  unfold run_pipeline
  dsimp only
  repeat' split
  all_goals
    first
      | apply normal_flow_kept
      | (apply pipeKept_pending; apply normal_flow_kept)
      | simp_all [pipeKept, resultSession, pipeOuts, stepKept, isStt, isPlay]

lemma energy_above_not_below (c : List Nat) (h : energy_above c = true) :
    energy_below c = false := by
  simp only [energy_above, decide_eq_true_eq] at h
  simp only [energy_below, decide_eq_false_iff_not, not_lt]
  exact le_of_lt h

lemma vad_update_flags (s : Session) (c : List Nat) (t : Int) :
    (vad_update s c t).is_speaking = s.is_speaking ∧
    (vad_update s c t).is_interrupted = s.is_interrupted ∧
    (vad_update s c t).last_response_time = s.last_response_time ∧
    (vad_update s c t).pending_goodbye = s.pending_goodbye ∧
    (vad_update s c t).conversation = s.conversation := by
  unfold vad_update
  repeat' split
  all_goals simp

lemma catchPipe_cont (r : PipeResult) (s' : Session)
    (h : (catchPipe r).1 = .cont s') : resultSession r = some s' := by
  cases r with
  | ok st outs => cases st <;> simp_all [catchPipe, resultSession]
  | err sE outs => simp_all [catchPipe, resultSession]

lemma catchPipe_outs (r : PipeResult) : (catchPipe r).2 = pipeOuts r := by
  cases r with
  | ok st outs => rfl
  | err sE outs => rfl

lemma sttCount_nil_of_all (outs : List Out)
    (h : (outs.all fun o => !isStt o) = true) : sttCount outs = 0 := by
  induction outs with
  | nil => rfl
  | cons o rest ih =>
    simp only [List.all_cons, Bool.and_eq_true] at h
    simp only [sttCount, List.filter]
    cases ho : isStt o with
    | true => rw [ho] at h; simp at h
    | false => simpa [sttCount] using ih h.2

/-- C1 (code bug): the decoder is the standard bias-0x84 G.711 expansion
(byte 0x00 is the loudest negative sample -32124, byte 0xFF is silence 0),
but re-encoding a decoded sample with this file's `pcm_to_mulaw` (bias 33,
clip 0x1FFF) and decoding again lands far outside the segment's
quantisation step: byte 0x00 round-trips to -7932 (error 24192 against a
step of 1024) and the silence byte 0xFF round-trips to sample 32 (error
32 against a step of 8), so `encode(decode(b))` does not reproduce the
decoded sample within standard mu-law quantisation error. -/
theorem mulaw_roundtrip_exceeds_quantization_error :
    mulaw_decode 0x00 = -32124 ∧
    mulaw_decode (pcm_to_mulaw (mulaw_decode 0x00)) = -7932 ∧
    mulaw_step 0x00 = 1024 ∧
    mulaw_step 0x00 <
      ((mulaw_decode 0x00 - mulaw_decode (pcm_to_mulaw (mulaw_decode 0x00))).natAbs : Int) ∧
    mulaw_decode 0xFF = 0 ∧
    mulaw_decode (pcm_to_mulaw (mulaw_decode 0xFF)) = 32 ∧
    mulaw_step 0xFF = 8 ∧
    mulaw_step 0xFF <
      ((mulaw_decode 0xFF - mulaw_decode (pcm_to_mulaw (mulaw_decode 0xFF))).natAbs : Int) := by
  decide

lemma should_process_fresh_speech (s : Session) (t : Int)
    (h : s.last_audio_time = t) : should_process s t = false := by
  unfold should_process
  rw [h]
  have h0 : (if 0 < t then t - t else 0 : Int) = 0 := by split <;> simp
  rw [h0]
  norm_num [SILENCE_DURATION_TO_PROCESS]

lemma buffer_too_large_false (s : Session)
    (h : s.audio_buffer.length < BUFFER_CEILING) : buffer_too_large s = false := by
  unfold buffer_too_large
  simp only [decide_eq_false_iff_not, not_le]
  exact h

lemma quiet_cooldown_clears (s : Session) (chunk : List Nat) (t : Int)
    (ext : Externals)
    (hne : chunk ≠ [])
    (hsp : s.is_speaking = false)
    (hcd : t - s.last_response_time < MIN_PAUSE_AFTER_SPEECH)
    (hb : energy_below chunk = true) :
    processMedia s chunk t ext = (.cont { s with audio_buffer := [] }, []) := by
  unfold processMedia
  simp [hne, hsp, hcd, hb]

lemma loud_frame_appends (s : Session) (chunk : List Nat) (t : Int)
    (ext : Externals)
    (hne : chunk ≠ [])
    (hsp : s.is_speaking = false)
    (ha : energy_above chunk = true)
    (hlen : s.audio_buffer.length + chunk.length < BUFFER_CEILING) :
    processMedia s chunk t ext =
      (.cont { s with user_is_speaking := true,
                      speech_start_time :=
                        if s.user_is_speaking then s.speech_start_time else t,
                      last_audio_time := t,
                      audio_buffer := s.audio_buffer ++ chunk }, []) := by
  have hb := energy_above_not_below chunk ha
  have hv : vad_update s chunk t =
      { s with user_is_speaking := true,
               speech_start_time := if s.user_is_speaking then s.speech_start_time else t,
               last_audio_time := t,
               audio_buffer := s.audio_buffer ++ chunk } := by
    unfold vad_update
    simp [ha]
  unfold processMedia
  simp only [hne, hsp, hb, Bool.false_and, Bool.and_false, Bool.false_eq_true,
    if_false, hv]
  rw [should_process_fresh_speech _ t rfl, buffer_too_large_false _ (by
    simpa [List.length_append] using hlen)]
  simp

lemma sumSquares_replicate (n b : Nat) :
    sumSquares (List.replicate n b) = n * (mulaw_decode b * mulaw_decode b) := by
  induction n with
  | zero => simp [sumSquares]
  | succ k ih =>
    simp only [List.replicate_succ, sumSquares, List.map_cons, List.sum_cons] at ih ⊢
    rw [ih]
    push_cast
    ring

lemma energy_above_loudUtterance : energy_above loudUtterance = true := by
  unfold loudUtterance energy_above
  rw [sumSquares_replicate]
  simp only [List.length_replicate]
  decide

lemma flush_fires_after_silence (s : Session) (chunk : List Nat) (t : Int)
    (hab : energy_above chunk = false) (hu : s.user_is_speaking = true)
    (hmin : MIN_AUDIO_LENGTH ≤ s.audio_buffer.length)
    (hlat : 0 < s.last_audio_time)
    (hsil : SILENCE_DURATION_TO_PROCESS ≤ t - s.last_audio_time) :
    (should_process (vad_update s chunk t) t ||
      buffer_too_large (vad_update s chunk t)) = true := by
  have hs1u : (vad_update s chunk t).user_is_speaking = true := by
    unfold vad_update
    simp [hab, hu]
  have hs1lat : (vad_update s chunk t).last_audio_time = s.last_audio_time := by
    unfold vad_update
    simp [hab, hu]
  have hs1len : MIN_AUDIO_LENGTH ≤ (vad_update s chunk t).audio_buffer.length := by
    unfold vad_update
    simp only [hab, Bool.false_eq_true, if_false, hu, if_true]
    try dsimp only
    split
    · split <;> simp only [List.length_append, MIN_AUDIO_LENGTH] at hmin ⊢ <;> omega
    · split <;> simp only [List.length_append, MIN_AUDIO_LENGTH] at hmin ⊢ <;> omega
  have hshould : should_process (vad_update s chunk t) t = true := by
    unfold should_process
    rw [hs1lat]
    simp [hs1u, hs1len, hlat, hsil]
  simp [hshould]

/-- C7: a frame processed within `MIN_PAUSE_AFTER_SPEECH` of the end of
the previous reply (while the AI is not mid-send) is discarded when its
energy is below the threshold — the buffer is cleared and nothing else
happens, so it can never contribute to a flush — and is processed as
genuine caller speech when its energy exceeds the threshold: the VAD
marks the user speaking and appends the frame to the buffer. -/
theorem cooldown_discards_quiet_keeps_loud (s : Session) (chunk : List Nat) (t : Int)
    (ext : Externals)
    (hne : chunk ≠ [])
    (hsp : s.is_speaking = false)
    (hcd : t - s.last_response_time < MIN_PAUSE_AFTER_SPEECH) :
    (energy_below chunk = true →
      processMedia s chunk t ext = (.cont { s with audio_buffer := [] }, [])) ∧
    (energy_above chunk = true →
      s.audio_buffer.length + chunk.length < BUFFER_CEILING →
      processMedia s chunk t ext =
        (.cont { s with user_is_speaking := true,
                        speech_start_time :=
                          if s.user_is_speaking then s.speech_start_time else t,
                        last_audio_time := t,
                        audio_buffer := s.audio_buffer ++ chunk }, [])) :=
  ⟨fun hb => quiet_cooldown_clears s chunk t ext hne hsp hcd hb,
   fun ha hlen => loud_frame_appends s chunk t ext hne hsp ha hlen⟩

lemma sttCount_cons_stt (n : Nat) (outs : List Out) :
    sttCount (Out.stt n :: outs) = 1 + sttCount outs := by
  simp [sttCount, List.filter, isStt, Nat.add_comm]

lemma flush_buffer_empty (q : Session) (t : Int) (ext : Externals) (s' : Session)
    (hq : q.audio_buffer = [])
    (h : (catchPipe (run_pipeline q t ext)).1 = .cont s') : s'.audio_buffer = [] := by
  have h2 := catchPipe_cont _ _ h
  have h3 := (run_pipeline_kept q t ext).1 s' h2
  rcases h3.1 with hb | hb
  · rw [hb, hq]
  · exact hb

/-- C6: the buffer stays below the 80000-byte hard ceiling after every
processed media event, and whenever appending a frame carries the buffer
to or past the ceiling, the same event issues the forced flush (exactly
one transcription request) and leaves the buffer empty. -/
theorem buffer_never_reaches_ceiling (s : Session) (chunk : List Nat) (t : Int)
    (ext : Externals) (hlt : s.audio_buffer.length < BUFFER_CEILING) :
    (∀ s', (processMedia s chunk t ext).1 = .cont s' →
       s'.audio_buffer.length < BUFFER_CEILING) ∧
    (s.is_speaking = false → energy_above chunk = true →
      BUFFER_CEILING ≤ s.audio_buffer.length + chunk.length →
      sttCount (processMedia s chunk t ext).2 = 1 ∧
      ∀ s', (processMedia s chunk t ext).1 = .cont s' → s'.audio_buffer = []) := by
  constructor
  · intro s' h
    unfold processMedia at h
    split at h
    · simp at h
      rw [← h]
      exact hlt
    · split at h
      · simp at h
        rw [← h]
        exact hlt
      · split at h
        · simp at h
          rw [← h]
          simp [BUFFER_CEILING]
        · dsimp only at h
          split at h
          · have he := flush_buffer_empty (flush_reset (vad_update s chunk t)) t ext s' (by
              simp [flush_reset]) (by simpa using h)
            rw [he]
            simp [BUFFER_CEILING]
          · next hcond =>
            simp at h
            rw [← h]
            simp only [Bool.or_eq_true, not_or] at hcond
            have h2 := hcond.2
            unfold buffer_too_large at h2
            simp only [decide_eq_true_eq, not_le] at h2
            exact h2
  · intro hsp ha hceil
    have hb := energy_above_not_below chunk ha
    have hne : chunk ≠ [] := by
      intro e
      rw [e] at ha
      simp [energy_above, sumSquares] at ha
    have hv : vad_update s chunk t =
        { s with user_is_speaking := true,
                 speech_start_time := if s.user_is_speaking then s.speech_start_time else t,
                 last_audio_time := t,
                 audio_buffer := s.audio_buffer ++ chunk } := by
      unfold vad_update
      simp [ha]
    have hlarge : buffer_too_large (vad_update s chunk t) = true := by
      rw [hv]
      unfold buffer_too_large
      simp only [decide_eq_true_eq, List.length_append]
      exact hceil
    unfold processMedia
    simp only [hne, hsp, hb, Bool.false_and, Bool.and_false, Bool.false_eq_true,
      if_false, hlarge, Bool.or_true, if_true]
    constructor
    · rw [sttCount_cons_stt, catchPipe_outs,
        sttCount_nil_of_all _ (run_pipeline_kept (flush_reset (vad_update s chunk t)) t ext).2.1]
    · intro s' h
      exact flush_buffer_empty (flush_reset (vad_update s chunk t)) t ext s' (by
        simp [flush_reset]) h

lemma flush_step_kept (q : Session) (t : Int) (ext : Externals) (s' : Session)
    (h : (catchPipe (run_pipeline q t ext)).1 = .cont s') : stepKept q s' :=
  (run_pipeline_kept q t ext).1 s' (catchPipe_cont _ _ h)

lemma vad_update_len (s : Session) (chunk : List Nat) (t : Int) :
    (vad_update s chunk t).audio_buffer.length ≤
      s.audio_buffer.length + chunk.length := by
  unfold vad_update
  split
  · simp [List.length_append]
  · split
    · dsimp only
      split
      · split <;> simp [List.length_append]
      · split <;> simp [List.length_append]
    · simp

/-- C5 (amended): outside the post-reply cooldown window the segmenter
behaves as claimed — (i) while the buffer (with the incoming frame)
holds less than `MIN_AUDIO_LENGTH` bytes, no flush ever fires, however
long the silence; (ii) once at least `MIN_AUDIO_LENGTH` bytes are
buffered from a speaking user and a silent frame arrives at least
`SILENCE_DURATION_TO_PROCESS` after the last loud frame, that event
produces exactly one flush and leaves the buffer empty with the VAD
idle; (iii) from the post-flush state every further silent frame
produces no flush and keeps the buffer empty — so the whole silent
stretch yields exactly one flush. -/
theorem segmenter_flush_amended :
    (∀ (s : Session) (chunk : List Nat) (t : Int) (ext : Externals),
       s.audio_buffer.length + chunk.length < MIN_AUDIO_LENGTH →
       sttCount (processMedia s chunk t ext).2 = 0) ∧
    (∀ (s : Session) (chunk : List Nat) (t : Int) (ext : Externals),
       chunk ≠ [] →
       energy_above chunk = false →
       ¬ (t - s.last_response_time < MIN_PAUSE_AFTER_SPEECH) →
       s.user_is_speaking = true →
       MIN_AUDIO_LENGTH ≤ s.audio_buffer.length →
       0 < s.last_audio_time →
       SILENCE_DURATION_TO_PROCESS ≤ t - s.last_audio_time →
       sttCount (processMedia s chunk t ext).2 = 1 ∧
       ∀ s', (processMedia s chunk t ext).1 = .cont s' →
         s'.audio_buffer = [] ∧ s'.user_is_speaking = false) ∧
    (∀ (s : Session) (chunk : List Nat) (t : Int) (ext : Externals),
       s.audio_buffer = [] → s.user_is_speaking = false → energy_above chunk = false →
       sttCount (processMedia s chunk t ext).2 = 0 ∧
       ∀ s', (processMedia s chunk t ext).1 = .cont s' →
         s'.audio_buffer = [] ∧ s'.user_is_speaking = false) := by
  refine ⟨?_, ?_, ?_⟩
  · intro s chunk t ext hshort
    unfold processMedia
    split
    · rfl
    · split
      · rfl
      · split
        · rfl
        · dsimp only
          split
          · next hcond =>
            exfalso
            have hlen := vad_update_len s chunk t
            rcases Bool.or_eq_true_iff.mp hcond with hc | hc
            · unfold should_process at hc
              simp only [Bool.and_eq_true, decide_eq_true_eq] at hc
              have := hc.1.1
              simp only [MIN_AUDIO_LENGTH] at this hshort
              omega
            · unfold buffer_too_large at hc
              simp only [decide_eq_true_eq] at hc
              simp only [MIN_AUDIO_LENGTH] at hshort
              simp only [BUFFER_CEILING] at hc
              omega
          · rfl
  · intro s chunk t ext hne hab hnc huser hmin hlat hsil
    have hs1u : (vad_update s chunk t).user_is_speaking = true := by
      unfold vad_update
      simp [hab, huser]
    have hs1lat : (vad_update s chunk t).last_audio_time = s.last_audio_time := by
      unfold vad_update
      simp [hab, huser]
    have hs1len : MIN_AUDIO_LENGTH ≤ (vad_update s chunk t).audio_buffer.length := by
      unfold vad_update
      simp only [hab, Bool.false_eq_true, if_false, huser, if_true]
      try dsimp only
      split
      · split <;> simp only [List.length_append, MIN_AUDIO_LENGTH] at hmin ⊢ <;> omega
      · split <;> simp only [List.length_append, MIN_AUDIO_LENGTH] at hmin ⊢ <;> omega
    have hshould : should_process (vad_update s chunk t) t = true := by
      unfold should_process
      rw [hs1lat]
      simp [hs1u, hs1len, hlat, hsil]
    unfold processMedia
    simp only [hne, hab, Bool.and_false, Bool.false_eq_true, if_false,
      decide_eq_false hnc, Bool.false_and, hshould, Bool.true_or, if_true]
    constructor
    · rw [sttCount_cons_stt, catchPipe_outs,
        sttCount_nil_of_all _ (run_pipeline_kept (flush_reset (vad_update s chunk t)) t ext).2.1]
    · intro s' h
      have hk := flush_step_kept (flush_reset (vad_update s chunk t)) t ext s' (by simpa using h)
      constructor
      · rcases hk.1 with hb | hb
        · rw [hb]; simp [flush_reset]
        · exact hb
      · rw [hk.2.1]; simp [flush_reset]
  · intro s chunk t ext hbuf huser hab
    have hv : vad_update s chunk t = s := by
      unfold vad_update
      simp [hab, huser]
    have hnsp : should_process s t = false := by
      unfold should_process
      simp [huser]
    have hnbl : buffer_too_large s = false := by
      unfold buffer_too_large
      simp [hbuf, BUFFER_CEILING]
    unfold processMedia
    simp only [hab, Bool.and_false, Bool.false_eq_true, if_false, hv, hnsp, hnbl,
      Bool.or_self]
    split
    · refine ⟨rfl, ?_⟩
      intro s' h
      simp at h
      rw [← h]
      exact ⟨hbuf, huser⟩
    · split
      · refine ⟨rfl, ?_⟩
        intro s' h
        simp at h
        rw [← h]
        exact ⟨rfl, huser⟩
      · refine ⟨rfl, ?_⟩
        intro s' h
        simp at h
        rw [← h]
        exact ⟨hbuf, huser⟩


/-- C5 (counterexample to the claim as stated): from the state right
after an AI reply (ended at time 1000 s), half a second of loud speech
is buffered (4000 bytes, meeting `MIN_AUDIO_LENGTH`) 0.4 s later, and
the user then stays silent from 1000.6 s to 1003 s — silence far beyond
`SILENCE_DURATION_TO_PROCESS` — yet the whole run produces zero flushes
and never hands the buffered audio to the pipeline: the first silent
frame falls inside the 1.5 s post-reply cooldown window and line 561
(`audio_buffer.clear()`) discards the entire utterance. -/
theorem segmenter_cooldown_swallows_utterance :
    (runEvents oracleHappy postReplySession
        [Event.media loudUtterance 1000400]).1.audio_buffer.length = 4000 ∧
    MIN_AUDIO_LENGTH ≤ 4000 ∧
    SILENCE_DURATION_TO_PROCESS ≤ (1003000 : Int) - 1000600 ∧
    sttCount (runEvents oracleHappy postReplySession cooldownTrace).2.1 = 0 ∧
    (runEvents oracleHappy postReplySession cooldownTrace).2.2 = false := by
  have h1 : processMedia postReplySession loudUtterance 1000400 oracleHappy =
      (.cont cooldownS1, []) := by
    rw [loud_frame_appends postReplySession loudUtterance 1000400 oracleHappy
      (by decide) rfl energy_above_loudUtterance
      (by norm_num [postReplySession, initSession, loudUtterance, BUFFER_CEILING])]
    simp [cooldownS1, postReplySession, initSession]
  have h2 : processMedia cooldownS1 quietFrame 1000600 oracleHappy =
      (.cont cooldownS2, []) := by
    rw [quiet_cooldown_clears cooldownS1 quietFrame 1000600 oracleHappy
      (by decide) rfl (by decide) (by decide)]
    rfl
  have h3 : processMedia cooldownS2 quietFrame 1002000 oracleHappy =
      (.cont cooldownS3, []) := by decide
  have h4 : processMedia cooldownS3 quietFrame 1003000 oracleHappy =
      (.cont cooldownS4, []) := by decide
  have hr1 : runEvents oracleHappy postReplySession
      [Event.media loudUtterance 1000400] = (cooldownS1, [], false) := by
    simp only [runEvents, processEvent, h1, List.append_nil, List.nil_append]
  have hrun : runEvents oracleHappy postReplySession cooldownTrace =
      (cooldownS4, [], false) := by
    simp only [cooldownTrace, runEvents, processEvent, h1, h2, h3, h4,
      List.append_nil, List.nil_append]
  refine ⟨?_, by decide, by decide, ?_, ?_⟩
  · rw [hr1]
    dsimp only
    unfold cooldownS1 loudUtterance
    dsimp only
    rw [List.length_replicate]
  · rw [hrun]
    rfl
  · rw [hrun]

lemma reply_stage_ack_keeps (s : Session) (t : Int) (ext : Externals) (conv : List Msg)
    (ai : String) (hp : s.pending_goodbye = false) :
    keepsListeningB (reply_stage s t ext conv true ai) = true := by
  unfold reply_stage
  dsimp only
  repeat' split
  all_goals simp_all [keepsListeningB]

lemma normal_flow_ack_keeps (s : Session) (t : Int) (ext : Externals) (transcript : String)
    (g : Bool) (hp : s.pending_goodbye = false) :
    keepsListeningB (normal_flow s t ext transcript g false true) = true := by
  unfold normal_flow
  dsimp only
  repeat' split
  all_goals
    first
      | exact reply_stage_ack_keeps _ _ _ _ _ hp
      | simp_all [keepsListeningB]

/-- C3: a transcript that, cleaned (stripped and lowercased), equals one
of the simple-acknowledgment phrases is never classified as exit intent
while no goodbye is pending: whatever the dialogue engine replies (the
exit sentinel included) and whatever the other collaborators do, the
session neither closes nor sets `pending_goodbye`, on the exception path
included. -/
theorem simple_ack_never_exit_intent (s : Session) (t : Int) (ext : Externals)
    (T : String)
    (hp : s.pending_goodbye = false)
    (ht : ext.transcribe = some T)
    (hack : NOT_EXIT_PHRASES.contains (clean_transcript T) = true) :
    keepsListeningB (run_pipeline s t ext) = true := by
  unfold run_pipeline
  rw [ht]
  dsimp only
  have he : is_exit_of (clean_transcript T) = false := by
    unfold is_exit_of
    rw [hack]
    simp
  rw [hp, he, hack]
  simp only [Bool.false_eq_true, if_false]
  exact normal_flow_ack_keeps _ _ _ _ _ hp

/-- Witness for C3: the transcript `thank you` with a dialogue reply
that embeds the exit sentinel still leaves the session listening. -/
theorem simple_ack_never_exit_intent_witness :
    NOT_EXIT_PHRASES.contains (clean_transcript "thank you") = true ∧
    keepsListeningB (run_pipeline initSession 0 oracleAckSent) = true :=
  ⟨by decide,
   simple_ack_never_exit_intent initSession 0 oracleAckSent "thank you" rfl rfl
     (by decide)⟩

/-- C4 (amended): while `pending_goodbye` is set, every transcript whose
punctuation-stripped cleaned text matches a negative-confirmation phrase
the way lines 658-663 test it — exact equality, or the phrase plus a
space as a prefix, or a space plus the phrase as a suffix — always
produces the closing message followed by session termination, whatever
the TTS service does. -/
theorem pending_no_response_terminates (s : Session) (t : Int) (ext : Externals)
    (T : String)
    (hp : s.pending_goodbye = true)
    (ht : ext.transcribe = some T)
    (hno : is_no_response_of (pyStripPunct (clean_transcript T)) = true) :
    closesWithGoodbyeB (run_pipeline s t ext) = true := by
  unfold run_pipeline
  rw [ht]
  dsimp only
  rw [hp, hno]
  simp only [if_true, Bool.true_or]
  split <;> simp [closesWithGoodbyeB]

/-- Witness for C4's amended theorem: `no thanks` while awaiting the
goodbye confirmation closes the call with the goodbye message. -/
theorem pending_no_response_terminates_witness :
    pendingSession.pending_goodbye = true ∧
    is_no_response_of (pyStripPunct (clean_transcript "no thanks")) = true ∧
    closesWithGoodbyeB (run_pipeline pendingSession 0 oracleNoThanks) = true :=
  ⟨rfl, by decide,
   pending_no_response_terminates pendingSession 0 oracleNoThanks "no thanks" rfl rfl
     (by decide)⟩

/-- C4 (counterexample to the claim as stated): the transcript
`i said no already` matches the negative-confirmation phrase `no` as a
whole token, yet with `pending_goodbye` set the session does not speak
the closing message and terminate — it resumes a normal dialogue turn:
the result continues listening with `pending_goodbye` cleared, the
history has grown to 3 messages (system, user, assistant) and the
dialogue reply is synthesised.  Lines 658-663 only test equality,
prefix and suffix, so a negative confirmation strictly inside the
sentence is missed. -/
theorem pending_whole_token_no_can_resume :
    spec_whole_token_match NO_RESPONSES
      (pyStripPunct (clean_transcript "i said no already")) = true ∧
    closesWithGoodbyeB (run_pipeline pendingSession 0 oracleMidNo) = false ∧
    keepsListeningB (run_pipeline pendingSession 0 oracleMidNo) = true ∧
    (resultSession (run_pipeline pendingSession 0 oracleMidNo)).map
      (fun s' => s'.conversation.length) = some 3 ∧
    ((pipeOuts (run_pipeline pendingSession 0 oracleMidNo)).any
      (fun o => o == Out.say "Hi, how can I help?")) = true := by
  decide

/-- C8: an exception raised by an external collaborator (transcription,
dialogue or synthesis) inside the pipeline is caught at the handler's
outer `except` boundary and turned into a plain continue of the receive
loop: the dropped turn sends no reply audio, and the session is back in
the listening state (`is_speaking = false`), ready for subsequent
inbound events. -/
theorem external_exception_caught (s : Session) (t : Int) (ext : Externals)
    (sE : Session) (outsE : List Out)
    (hs : s.is_speaking = false)
    (herr : run_pipeline s t ext = .err sE outsE) :
    catchPipe (run_pipeline s t ext) = (StepResult.cont sE, outsE) ∧
    sE.is_speaking = false ∧
    (outsE.all fun o => !isPlay o) = true := by
  refine ⟨by rw [herr]; rfl, ?_, ?_⟩
  · have hk := (run_pipeline_kept s t ext).1 sE (by rw [herr]; rfl)
    rcases hk.2.2.2.2.1 with h | h
    · rw [h]; exact hs
    · exact h
  · exact (run_pipeline_kept s t ext).2.2 sE outsE herr

/-- Witness for C8: a failing transcription call from the initial
session is caught and the loop continues in the listening state. -/
theorem external_exception_caught_witness :
    run_pipeline initSession 0 oracleNoStt = .err initSession [] ∧
    catchPipe (run_pipeline initSession 0 oracleNoStt) =
      (StepResult.cont initSession, []) ∧
    initSession.is_speaking = false :=
  ⟨by decide,
   (external_exception_caught initSession 0 oracleNoStt initSession [] rfl
      (by decide)).1,
   rfl⟩

/-- C10: when a media event flushes, `processMedia` hands the pipeline
the `flush_reset` state — buffer already cleared and the VAD flags
(`user_is_speaking`, `last_silence_time`) already reset, the resets of
lines 605-611 preceding the `try:` — and therefore even when an
external call raises mid-pipeline, the caught state still has an empty
buffer and idle VAD flags. -/
theorem flush_resets_survive_pipeline_failure (s : Session) (chunk : List Nat)
    (t : Int) (ext : Externals)
    (hne : chunk ≠ [])
    (hni : (s.is_speaking && energy_above chunk) = false)
    (hnc : (decide (t - s.last_response_time < MIN_PAUSE_AFTER_SPEECH) &&
            energy_below chunk) = false)
    (hflush : (should_process (vad_update s chunk t) t ||
               buffer_too_large (vad_update s chunk t)) = true) :
    processMedia s chunk t ext =
      ((catchPipe (run_pipeline (flush_reset (vad_update s chunk t)) t ext)).1,
       Out.stt (vad_update s chunk t).audio_buffer.length ::
         (catchPipe (run_pipeline (flush_reset (vad_update s chunk t)) t ext)).2) ∧
    (flush_reset (vad_update s chunk t)).audio_buffer = [] ∧
    (flush_reset (vad_update s chunk t)).user_is_speaking = false ∧
    (flush_reset (vad_update s chunk t)).last_silence_time = 0 ∧
    (∀ sE outsE,
       run_pipeline (flush_reset (vad_update s chunk t)) t ext = .err sE outsE →
       sE.audio_buffer = [] ∧ sE.user_is_speaking = false ∧
       sE.last_silence_time = 0) := by
  refine ⟨?_, rfl, rfl, rfl, ?_⟩
  · unfold processMedia
    simp only [hne, hni, hnc, Bool.false_eq_true, if_false, hflush, if_true]
  · intro sE outsE herr
    have hk := (run_pipeline_kept (flush_reset (vad_update s chunk t)) t ext).1 sE
      (by rw [herr]; rfl)
    refine ⟨?_, ?_, ?_⟩
    · rcases hk.1 with h | h
      · rw [h]; rfl
      · exact h
    · rw [hk.2.1]; rfl
    · rw [hk.2.2.1]; rfl

/-- Witness for C10: a flush with half a second of buffered speech and a
failing transcription call still ends with an empty buffer and idle VAD
state. -/
theorem flush_resets_survive_pipeline_failure_witness :
    (should_process (vad_update bufferedSession quietFrame 60000) 60000 ||
      buffer_too_large (vad_update bufferedSession quietFrame 60000)) = true ∧
    (flush_reset (vad_update bufferedSession quietFrame 60000)).audio_buffer = [] ∧
    (flush_reset (vad_update bufferedSession quietFrame 60000)).user_is_speaking = false :=
  have hflush := flush_fires_after_silence bufferedSession quietFrame 60000
    (by decide) rfl
    (by unfold bufferedSession
        dsimp only
        rw [List.length_replicate]
        decide)
    (by decide) (by decide)
  ⟨hflush,
   (flush_resets_survive_pipeline_failure bufferedSession quietFrame 60000 oracleNoStt
      (by decide) (by decide) (by decide) hflush).2.1,
   (flush_resets_survive_pipeline_failure bufferedSession quietFrame 60000 oracleNoStt
      (by decide) (by decide) (by decide) hflush).2.2.1⟩

set_option maxRecDepth 8000 in
/-- C2 (code bug): the interruption mechanism can never engage.  The
handler is one sequential receive loop, so the reply send loop runs to
completion inside the processing of a single media event and every
event handler returns with `is_speaking = false` and `is_interrupted =
false`; a frame that in real time arrives during playback is only
examined afterwards, when `is_speaking` is already false, so line 552
never fires, `is_interrupted` is never set, and every reply is sent in
full.  Conjuncts: (i) processing any event from a state with both flags
clear returns with both flags clear — so from `initSession` every frame
is examined with `is_speaking = false` and the guard of line 552 is
never satisfied; (ii) the initial state has the flags clear; (iii) on a
concrete reply turn, all chunks of the synthesised audio are sent
(`playCount` equals the total chunk count), the resulting state has
both flags false, and a loud frame processed right after — during the
reply's real-time playback span — is handled as fresh caller speech
(`user_is_speaking := true`), not as an interruption. -/
theorem interruption_detection_never_fires :
    (∀ (s : Session) (e : Event) (ext : Externals) (s' : Session) (outs : List Out),
       flagsClear s → processEvent ext s e = (.cont s', outs) → flagsClear s') ∧
    flagsClear initSession ∧
    (playCount (pipeOuts (run_pipeline initSession 102000 oracleHappy)) =
       (chunksOf640 (List.replicate 800 255)).length ∧
     resultSession (run_pipeline initSession 102000 oracleHappy) = some afterReplyState ∧
     afterReplyState.is_interrupted = false ∧
     afterReplyState.is_speaking = false ∧
     (processMedia afterReplyState loudFrame 102100 oracleHappy).1 =
       .cont { afterReplyState with
               user_is_speaking := true
               speech_start_time := 102100
               last_audio_time := 102100
               audio_buffer := loudFrame }) := by
  refine ⟨?_, ⟨rfl, rfl⟩, by decide, by decide, rfl, rfl, ?_⟩
  · intro s e ext s' outs hf hp
    obtain ⟨h1, h2⟩ := hf
    cases e with
    | start =>
      rcases htts : ext.tts GREETING_MSG with _ | v
      · simp only [processEvent, htts] at hp
        exact StepResult.noConfusion
          (congrArg Prod.fst hp : StepResult.closed = StepResult.cont s')
      · simp only [processEvent, htts, Prod.mk.injEq, StepResult.cont.injEq] at hp
        rw [← hp.1]
        exact ⟨h1, h2⟩
    | dtmf d =>
      simp only [processEvent, Prod.mk.injEq, StepResult.cont.injEq] at hp
      rw [← hp.1]
      exact ⟨h1, h2⟩
    | stop =>
      simp only [processEvent] at hp
      exact StepResult.noConfusion
        (congrArg Prod.fst hp : StepResult.closed = StepResult.cont s')
    | media chunk t =>
      simp only [processEvent, processMedia] at hp
      split at hp
      · simp only [Prod.mk.injEq, StepResult.cont.injEq] at hp
        rw [← hp.1]
        exact ⟨h1, h2⟩
      · split at hp
        · next hguard =>
          rw [h1] at hguard
          simp at hguard
        · split at hp
          · simp only [Prod.mk.injEq, StepResult.cont.injEq] at hp
            rw [← hp.1]
            exact ⟨h1, h2⟩
          · split at hp
            · have hcont : (catchPipe (run_pipeline (flush_reset (vad_update s chunk t))
                  t ext)).1 = .cont s' := congrArg Prod.fst hp
              have hk := flush_step_kept (flush_reset (vad_update s chunk t)) t ext s' hcont
              have hv := vad_update_flags s chunk t
              constructor
              · rcases hk.2.2.2.2.1 with h | h
                · rw [h]
                  exact hv.1.trans h1
                · exact h
              · rcases hk.2.2.2.2.2 with h | h
                · rw [h]
                  exact hv.2.1.trans h2
                · exact h
            · simp only [Prod.mk.injEq, StepResult.cont.injEq] at hp
              rw [← hp.1]
              have hv := vad_update_flags s chunk t
              exact ⟨hv.1.trans h1, hv.2.1.trans h2⟩
  · rw [loud_frame_appends afterReplyState loudFrame 102100 oracleHappy
      (by decide) rfl (by decide) (by decide)]
    rfl

/-- Witness for C2's preservation conjunct: a quiet frame processed from
the initial state returns the same flag-clear state. -/
theorem interruption_detection_never_fires_witness :
    processEvent oracleHappy initSession (Event.media quietFrame 5) =
      (StepResult.cont initSession, []) ∧
    flagsClear initSession :=
  ⟨by decide,
   interruption_detection_never_fires.1 initSession (Event.media quietFrame 5)
     oracleHappy initSession [] ⟨rfl, rfl⟩ (by decide)⟩

/-- C9 (amended): on a reply turn that reaches the TTS stage — the
dialogue reply carries no exit sentinel and the synthesis request does
not raise — the final history is exactly `trim_history` of the history
with the assistant reply appended (lines 945-947), and `trim_history`
of any list longer than 12 entries has exactly 11 entries with the
first entry (the system prompt) preserved.  Exit-sentinel turns and
turns aborted by an exception skip the trim. -/
theorem history_trim_on_reply_turns (s : Session) (t : Int) (ext : Externals)
    (conv : List Msg) (ack : Bool) (ai : String)
    (hsent : containsSub EXIT_SENTINEL ai = false)
    (htts : ext.tts ai ≠ none) :
    (∀ s', resultSession (reply_stage s t ext conv ack ai) = some s' →
       s'.conversation = trim_history (conv ++ [⟨"assistant", ai⟩])) ∧
    (∀ conv2 : List Msg, 12 < conv2.length →
       (trim_history conv2).length = 11 ∧ (trim_history conv2).head? = conv2.head?) := by
  constructor
  · intro s' hs'
    have hstrip : sentinel_strip ai ack = ai := by
      unfold sentinel_strip
      rw [hsent]
      simp
    unfold reply_stage at hs'
    dsimp only at hs'
    rw [hstrip, hsent] at hs'
    simp only [Bool.false_and, Bool.false_eq_true, if_false] at hs'
    rcases hr : ext.tts ai with _ | ttsRes
    · exact absurd hr htts
    · rw [hr] at hs'
      cases ttsRes with
      | none =>
        simp only [resultSession, Option.some.injEq] at hs'
        rw [← hs']
      | some audio =>
        simp only [resultSession, Option.some.injEq] at hs'
        rw [← hs']
  · intro conv2 hlen
    unfold trim_history
    rw [if_pos hlen]
    cases conv2 with
    | nil => simp at hlen
    | cons a rest =>
      constructor
      · simp only [List.length_append, List.length_take, List.length_drop,
          List.length_cons] at hlen ⊢
        omega
      · simp

/-- Witness for C9's amended theorem: a normal reply turn from the
12-entry history ends with the trimmed history. -/
theorem history_trim_on_reply_turns_witness :
    containsSub EXIT_SENTINEL "We are open nine to six." = false ∧
    (∀ s', resultSession (reply_stage sessionConv12 50000 oracleHappy
        (sessionConv12.conversation ++ [⟨"user", "hi"⟩]) false
        "We are open nine to six.") = some s' →
      s'.conversation = trim_history ((sessionConv12.conversation ++
        [⟨"user", "hi"⟩]) ++ [⟨"assistant", "We are open nine to six."⟩])) :=
  ⟨by decide,
   (history_trim_on_reply_turns sessionConv12 50000 oracleHappy
      (sessionConv12.conversation ++ [⟨"user", "hi"⟩]) false
      "We are open nine to six." (by decide) (by decide)).1⟩

/-- C9 (counterexample to the claim as stated): an exit-intent turn
driven by the dialogue engine's sentinel, starting from a 12-entry
history, completes (the goodbye question is queued and `pending_goodbye`
is set) with 13 entries in the history — more than 12, and not trimmed
to 11 — because the sentinel branch leaves the turn at line 855 before
the trim of lines 945-947 is reached. -/
theorem exit_sentinel_turn_skips_trim :
    sessionConv12.conversation.length = 12 ∧
    (resultSession (run_pipeline sessionConv12 50000 oracleSentinel)).map
      (fun s' => s'.conversation.length) = some 13 ∧
    (resultSession (run_pipeline sessionConv12 50000 oracleSentinel)).map
      Session.pending_goodbye = some true := by
  decide

/-- Witness for C5's amended theorem: from a session holding exactly
`MIN_AUDIO_LENGTH` bytes of speech, a quiet frame arriving 10 s after
the last loud frame produces exactly one flush. -/
theorem segmenter_flush_amended_witness :
    bufferedSession.user_is_speaking = true ∧
    MIN_AUDIO_LENGTH ≤ bufferedSession.audio_buffer.length ∧
    sttCount (processMedia bufferedSession quietFrame 60000 oracleHappy).2 = 1 :=
  ⟨rfl,
   by unfold bufferedSession; dsimp only; rw [List.length_replicate]; decide,
   (segmenter_flush_amended.2.1 bufferedSession quietFrame 60000 oracleHappy
      (by decide) (by decide) (by decide) rfl
      (by unfold bufferedSession; dsimp only; rw [List.length_replicate]; decide)
      (by decide) (by decide)).1⟩

/-- Witness for C6: a quiet frame from the fresh session keeps the
buffer below the ceiling. -/
theorem buffer_never_reaches_ceiling_witness :
    initSession.audio_buffer.length < BUFFER_CEILING ∧
    ({ initSession with audio_buffer := [] } : Session).audio_buffer.length <
      BUFFER_CEILING :=
  ⟨by decide,
   (buffer_never_reaches_ceiling initSession quietFrame 5 oracleHappy (by decide)).1
     { initSession with audio_buffer := [] } (by decide)⟩

/-- Witness for C7: a quiet frame 0.6 s after the reply ended is
discarded with the buffer cleared. -/
theorem cooldown_discards_quiet_keeps_loud_witness :
    energy_below quietFrame = true ∧
    processMedia postReplySession quietFrame 1000600 oracleHappy =
      (StepResult.cont { postReplySession with audio_buffer := [] }, []) :=
  ⟨by decide,
   (cooldown_discards_quiet_keeps_loud postReplySession quietFrame 1000600 oracleHappy
      (by decide) rfl (by decide)).1 (by decide)⟩
